import Mathlib

/-
Verification development for the ragbuilder configuration and
component-registry layer (src/ragbuilder/config/components.py and
src/ragbuilder/data_ingest/config.py).

The Python code is shallowly embedded: parsed YAML documents / Python values
become the inductive type `PyVal`; the pydantic models become Lean structures
with explicit validation functions mirroring pydantic v2's behaviour for the
value shapes that arise in configuration documents (pydantic's default model
config is extra=ignore: undeclared keys are silently dropped; fields absent
from the input take their declared default / default_factory value; `None`
is accepted for Optional fields).  `load_config` becomes a total function
from a parsed document to a `LoadResult` that separates the distinct Python
outcomes (a returned DataIngestOptionsConfig, a returned DataIngestConfig,
a raised ValueError, a raised TypeError, a raised yaml error).
-/

/-- A Python value as produced by `yaml.safe_load` and handed around by the
configuration code.  Mapping keys in configuration documents are strings.
Floats are represented exactly as rationals (the concrete documents involved
only use decimal literals such as 0.75, which are exact).  `enumv cls v`
represents a member of the str-Enum class named `cls` whose string value is
`v` (such members appear in `model_dump()` output, pydantic v2 python-mode
serialization keeps Enum members as-is). -/
inductive PyVal where
  | none
  | bool (b : Bool)
  | int (n : Int)
  | float (q : Rat)
  | str (s : String)
  | list (xs : List PyVal)
  | dict (entries : List (String × PyVal))
  | enumv (cls : String) (v : String)

/-- An association list standing for a Python dict with string keys. -/
abbrev PyDict := List (String × PyVal)

/-- First value bound to key `k` (Python dicts have unique keys, so the first
match is the value). -/
def dictGet (es : PyDict) (k : String) : Option PyVal :=
  (es.find? (fun kv => kv.1 == k)).map (fun kv => kv.2)

/-- Whether `pre` is a prefix of `l` (character lists). -/
def charPrefix : List Char → List Char → Bool
  | [], _ => true
  | _ :: _, [] => false
  | a :: as, b :: bs => a == b && charPrefix as bs

/-- Whether `needle` occurs contiguously inside `hay` (character lists):
Python substring containment `needle in hay`. -/
def charSub (needle : List Char) : List Char → Bool
  | [] => needle.isEmpty
  | b :: bs => charPrefix needle (b :: bs) || charSub needle bs

/-- Python `needle in hay` for strings. -/
def strContains (needle hay : String) : Bool :=
  charSub needle.data hay.data

/-- Python `==` between a value and a string: only `str` (and str-subclass
Enum members, which compare by their string value) can equal a string. -/
def pyEqStr (v : PyVal) (k : String) : Bool :=
  match v with
  | .str s => s == k
  | .enumv _ s => s == k
  | _ => false

/-- Python membership test `k in v` for a string `k`: succeeds on dicts
(key lookup), lists (element equality) and strings (substring); raises
TypeError on None, bools, ints and floats.  The error message is the
CPython message for the failing type. -/
def pyContains (k : String) (v : PyVal) : Except String Bool :=
  match v with
  | .dict es => .ok (es.any (fun kv => kv.1 == k))
  | .list xs => .ok (xs.any (fun x => pyEqStr x k))
  | .str s => .ok (strContains k s)
  | .none => .error "argument of type \x27NoneType\x27 is not iterable"
  | .bool _ => .error "argument of type \x27bool\x27 is not iterable"
  | .int _ => .error "argument of type \x27int\x27 is not iterable"
  | .float _ => .error "argument of type \x27float\x27 is not iterable"
  | .enumv _ s => .ok (strContains k s)

/- Component type enumerations from src/ragbuilder/config/components.py.
Each is a str-Enum; `value` gives the member's string value and `fromValue`
recovers a member from its value (how pydantic validates a string input
against an enum-typed field). -/

inductive ParserType where
  | UNSTRUCTURED | PYMUPDF | PYPDF | DOCX | AZURE_BLOB | S3 | DIRECTORY
  | WEB | CUSTOM
deriving DecidableEq

def ParserType.value : ParserType → String
  | .UNSTRUCTURED => "unstructured"
  | .PYMUPDF => "pymupdf"
  | .PYPDF => "pypdf"
  | .DOCX => "docx"
  | .AZURE_BLOB => "azure_blob"
  | .S3 => "s3"
  | .DIRECTORY => "directory"
  | .WEB => "web"
  | .CUSTOM => "custom"

def ParserType.fromValue (s : String) : Option ParserType :=
  if s == "unstructured" then some .UNSTRUCTURED
  else if s == "pymupdf" then some .PYMUPDF
  else if s == "pypdf" then some .PYPDF
  else if s == "docx" then some .DOCX
  else if s == "azure_blob" then some .AZURE_BLOB
  else if s == "s3" then some .S3
  else if s == "directory" then some .DIRECTORY
  else if s == "web" then some .WEB
  else if s == "custom" then some .CUSTOM
  else Option.none

inductive ChunkingStrategy where
  | CHARACTER | RECURSIVE | TOKEN | MARKDOWN | HTML | SEMANTIC | CUSTOM
deriving DecidableEq

def ChunkingStrategy.value : ChunkingStrategy → String
  | .CHARACTER => "CharacterTextSplitter"
  | .RECURSIVE => "RecursiveCharacterTextSplitter"
  | .TOKEN => "TokenTextSplitter"
  | .MARKDOWN => "MarkdownHeaderTextSplitter"
  | .HTML => "HTMLHeaderTextSplitter"
  | .SEMANTIC => "SemanticChunker"
  | .CUSTOM => "custom"

def ChunkingStrategy.fromValue (s : String) : Option ChunkingStrategy :=
  if s == "CharacterTextSplitter" then some .CHARACTER
  else if s == "RecursiveCharacterTextSplitter" then some .RECURSIVE
  else if s == "TokenTextSplitter" then some .TOKEN
  else if s == "MarkdownHeaderTextSplitter" then some .MARKDOWN
  else if s == "HTMLHeaderTextSplitter" then some .HTML
  else if s == "SemanticChunker" then some .SEMANTIC
  else if s == "custom" then some .CUSTOM
  else Option.none

inductive EmbeddingModel where
  | OPENAI | AZURE_OPENAI | HUGGINGFACE | OLLAMA | COHERE | VERTEXAI
  | BEDROCK | JINA | CUSTOM
deriving DecidableEq

def EmbeddingModel.value : EmbeddingModel → String
  | .OPENAI => "openai"
  | .AZURE_OPENAI => "azure_openai"
  | .HUGGINGFACE => "huggingface"
  | .OLLAMA => "ollama"
  | .COHERE => "cohere"
  | .VERTEXAI => "vertexai"
  | .BEDROCK => "bedrock"
  | .JINA => "jina"
  | .CUSTOM => "custom"

def EmbeddingModel.fromValue (s : String) : Option EmbeddingModel :=
  if s == "openai" then some .OPENAI
  else if s == "azure_openai" then some .AZURE_OPENAI
  else if s == "huggingface" then some .HUGGINGFACE
  else if s == "ollama" then some .OLLAMA
  else if s == "cohere" then some .COHERE
  else if s == "vertexai" then some .VERTEXAI
  else if s == "bedrock" then some .BEDROCK
  else if s == "jina" then some .JINA
  else if s == "custom" then some .CUSTOM
  else Option.none

inductive VectorDatabase where
  | FAISS | CHROMA | PINECONE | WEAVIATE | QDRANT | MILVUS | PGVECTOR
  | ELASTICSEARCH | CUSTOM
deriving DecidableEq

def VectorDatabase.value : VectorDatabase → String
  | .FAISS => "faiss"
  | .CHROMA => "chroma"
  | .PINECONE => "pinecone"
  | .WEAVIATE => "weaviate"
  | .QDRANT => "qdrant"
  | .MILVUS => "milvus"
  | .PGVECTOR => "pgvector"
  | .ELASTICSEARCH => "elasticsearch"
  | .CUSTOM => "custom"

def VectorDatabase.fromValue (s : String) : Option VectorDatabase :=
  if s == "faiss" then some .FAISS
  else if s == "chroma" then some .CHROMA
  else if s == "pinecone" then some .PINECONE
  else if s == "weaviate" then some .WEAVIATE
  else if s == "qdrant" then some .QDRANT
  else if s == "milvus" then some .MILVUS
  else if s == "pgvector" then some .PGVECTOR
  else if s == "elasticsearch" then some .ELASTICSEARCH
  else if s == "custom" then some .CUSTOM
  else Option.none

inductive RetrieverType where
  | SIMILARITY | MMR | MULTI_QUERY | BM25 | PARENT_DOC_RETRIEVER_FULL
  | PARENT_DOC_RETRIEVER_LARGE | GRAPH_RETRIEVER | CUSTOM
deriving DecidableEq

def RetrieverType.value : RetrieverType → String
  | .SIMILARITY => "similarity"
  | .MMR => "mmr"
  | .MULTI_QUERY => "multi_query"
  | .BM25 => "bm25"
  | .PARENT_DOC_RETRIEVER_FULL => "parent_doc_full"
  | .PARENT_DOC_RETRIEVER_LARGE => "parent_doc_large"
  | .GRAPH_RETRIEVER => "graph"
  | .CUSTOM => "custom"

inductive EvaluatorType where
  | SIMILARITY | RAGAS | CUSTOM
deriving DecidableEq

def EvaluatorType.value : EvaluatorType → String
  | .SIMILARITY => "similarity"
  | .RAGAS => "ragas"
  | .CUSTOM => "custom"

def EvaluatorType.fromValue (s : String) : Option EvaluatorType :=
  if s == "similarity" then some .SIMILARITY
  else if s == "ragas" then some .RAGAS
  else if s == "custom" then some .CUSTOM
  else Option.none

/- Package Requirement Spec, from components.py `_PkgSpec`. -/

/-- Python `install_name.replace("-", "_")`: since the pattern is a single
character, this is the character-wise map replacing hyphen by underscore. -/
def hyphenToUnderscore (s : String) : String :=
  String.mk (s.data.map (fun c => if c == '-' then '_' else c))

/-- The dataclass `_PkgSpec` after `__post_init__` has run. -/
structure PkgSpec where
  install_name : String
  import_name : String
deriving DecidableEq

/-- Constructing `_PkgSpec(install_name, import_name)`: `import_name`
defaults to the empty string, and `__post_init__` replaces a falsy (empty)
name for importing by the install name with hyphens replaced by underscores. -/
def mkPkgSpec (install_name : String) (import_name : String) : PkgSpec :=
  { install_name := install_name
    import_name :=
      if import_name == "" then hyphenToUnderscore install_name
      else import_name }

/- Registry dispatch tables from components.py, as association lists keyed by
the enumeration members, each value recording the (module path, symbol name)
pair handed to `lazy_load`. -/

/-- The (module path, class name) pair captured by a `lazy_load` closure. -/
structure LazyRef where
  modulePath : String
  className : String
deriving DecidableEq

def LOADER_MAP : List (ParserType × LazyRef) :=
  [(.UNSTRUCTURED, ⟨"langchain_community.document_loaders", "UnstructuredFileLoader"⟩),
   (.PYMUPDF, ⟨"langchain_community.document_loaders", "PyMuPDFLoader"⟩),
   (.PYPDF, ⟨"langchain_community.document_loaders", "PyPDFLoader"⟩),
   (.DOCX, ⟨"langchain_community.document_loaders", "Docx2txtLoader"⟩),
   (.AZURE_BLOB, ⟨"langchain_community.document_loaders", "AzureBlobStorageContainerLoader"⟩),
   (.S3, ⟨"langchain_community.document_loaders", "S3DirectoryLoader"⟩),
   (.DIRECTORY, ⟨"langchain_community.document_loaders", "DirectoryLoader"⟩),
   (.WEB, ⟨"langchain_community.document_loaders", "WebBaseLoader"⟩)]

def CHUNKER_MAP : List (ChunkingStrategy × LazyRef) :=
  [(.CHARACTER, ⟨"langchain_text_splitters", "CharacterTextSplitter"⟩),
   (.RECURSIVE, ⟨"langchain_text_splitters", "RecursiveCharacterTextSplitter"⟩),
   (.TOKEN, ⟨"langchain_text_splitters", "TokenTextSplitter"⟩),
   (.MARKDOWN, ⟨"langchain_text_splitters", "MarkdownHeaderTextSplitter"⟩),
   (.HTML, ⟨"langchain_text_splitters", "HTMLHeaderTextSplitter"⟩),
   (.SEMANTIC, ⟨"langchain_experimental.text_splitter", "SemanticChunker"⟩)]

def EMBEDDING_MAP : List (EmbeddingModel × LazyRef) :=
  [(.OPENAI, ⟨"langchain_openai", "OpenAIEmbeddings"⟩),
   (.AZURE_OPENAI, ⟨"langchain_openai", "AzureOpenAIEmbeddings"⟩),
   (.HUGGINGFACE, ⟨"langchain_huggingface", "HuggingFaceEmbeddings"⟩),
   (.OLLAMA, ⟨"langchain_community.embeddings", "OllamaEmbeddings"⟩),
   (.COHERE, ⟨"langchain_community.embeddings", "CohereEmbeddings"⟩),
   (.VERTEXAI, ⟨"langchain_community.embeddings", "VertexAIEmbeddings"⟩),
   (.BEDROCK, ⟨"langchain_community.embeddings", "BedrockEmbeddings"⟩),
   (.JINA, ⟨"langchain_community.embeddings", "JinaEmbeddings"⟩)]

def VECTORDB_MAP : List (VectorDatabase × LazyRef) :=
  [(.FAISS, ⟨"langchain.vectorstores", "FAISS"⟩),
   (.CHROMA, ⟨"langchain.vectorstores", "Chroma"⟩),
   (.PINECONE, ⟨"langchain.vectorstores", "Pinecone"⟩),
   (.WEAVIATE, ⟨"langchain.vectorstores", "Weaviate"⟩),
   (.QDRANT, ⟨"langchain.vectorstores", "Qdrant"⟩),
   (.MILVUS, ⟨"langchain.vectorstores", "Milvus"⟩),
   (.PGVECTOR, ⟨"langchain.vectorstores", "PGVector"⟩),
   (.ELASTICSEARCH, ⟨"langchain.vectorstores", "ElasticsearchStore"⟩)]

def RETRIEVER_MAP : List (RetrieverType × LazyRef) :=
  [(.BM25, ⟨"langchain.retrievers", "BM25Retriever"⟩)]

/-- Python dict lookup `MAP[key]` modelled totally: `some` when the key has
an entry, `none` where the Python lookup would raise KeyError. -/
def lookupLoader (p : ParserType) : Option LazyRef :=
  (LOADER_MAP.find? (fun kv => kv.1 == p)).map (fun kv => kv.2)

def lookupChunker (c : ChunkingStrategy) : Option LazyRef :=
  (CHUNKER_MAP.find? (fun kv => kv.1 == c)).map (fun kv => kv.2)

def lookupEmbedding (e : EmbeddingModel) : Option LazyRef :=
  (EMBEDDING_MAP.find? (fun kv => kv.1 == e)).map (fun kv => kv.2)

def lookupVectorDB (v : VectorDatabase) : Option LazyRef :=
  (VECTORDB_MAP.find? (fun kv => kv.1 == v)).map (fun kv => kv.2)

def lookupRetriever (r : RetrieverType) : Option LazyRef :=
  (RETRIEVER_MAP.find? (fun kv => kv.1 == r)).map (fun kv => kv.2)

/- Configuration model structures from data_ingest/config.py.  The source
classes inherit `input_source`/`test_dataset` from `BaseConfig`; the
inherited fields are flattened into each structure here, keeping names. -/

/-- Value of a `Union[str, List[str]]` field. -/
inductive InputSource where
  | str (s : String)
  | list (xs : List String)

structure LoaderConfig where
  type : ParserType
  loader_kwargs : Option PyDict
  custom_class : Option String

structure ChunkingStrategyConfig where
  type : ChunkingStrategy
  chunker_kwargs : Option PyDict
  custom_class : Option String

structure ChunkSizeConfig where
  min : Int
  max : Int
  stepsize : Int

structure VectorDBConfig where
  type : VectorDatabase
  vectordb_kwargs : Option PyDict
  custom_class : Option String

structure EmbeddingConfig where
  type : EmbeddingModel
  model_kwargs : Option PyDict
  custom_class : Option String

structure EvaluationConfig where
  type : EvaluatorType
  custom_class : Option String
  evaluator_kwargs : Option PyDict

structure OptimizationConfig where
  type : Option String
  n_trials : Option Int
  n_jobs : Option Int
  timeout : Option Int
  storage : Option String
  study_name : Option String
  load_if_exists : Option Bool
  overwrite_study : Option Bool
  optimization_direction : Option String

/-- The dataclass LogConfig.  `logging.INFO` is the integer 20. -/
structure LogConfig where
  log_level : Int
  log_file : Option String
  show_progress_bar : Bool
  verbose : Bool

structure DataIngestOptionsConfig where
  input_source : InputSource
  test_dataset : String
  document_loaders : Option (List LoaderConfig)
  chunking_strategies : Option (List ChunkingStrategyConfig)
  chunk_size : Option ChunkSizeConfig
  chunk_overlap : Option (List Int)
  embedding_models : Option (List EmbeddingConfig)
  vector_databases : Option (List VectorDBConfig)
  sampling_rate : Option Rat
  optimization : Option OptimizationConfig
  log_config : Option LogConfig
  database_logging : Option Bool
  database_path : Option String
  evaluation_config : EvaluationConfig

structure DataIngestConfig where
  input_source : InputSource
  test_dataset : String
  document_loader : LoaderConfig
  chunking_strategy : ChunkingStrategyConfig
  chunk_size : Int
  chunk_overlap : Int
  embedding_model : EmbeddingConfig
  vector_database : VectorDBConfig
  sampling_rate : Option Rat

/- Defaults.  The OptimizationConfig `study_name` Field default is the
f-string `data_ingest_{int(time.time()*1000+random.randint(1, 1000))}`;
because it appears as `Field(default=...)` inside the class body, Python
evaluates it exactly once, when the module is imported.  The import-time
quantities are abstracted as two integers (the milliseconds clock reading
and the random draw); their truncated sum is all the name depends on. -/

/-- The study-name default computed at module import time. -/
def studyNameDefault (importMillis importRand : Int) : String :=
  "data_ingest_" ++ toString (importMillis + importRand)

/-- The `OptimizationConfig()` default in a process whose module import
evaluated the Field default with clock reading `importMillis` and random
draw `importRand`. -/
def defaultOptimizationConfig (sn : String) : OptimizationConfig :=
  { type := some "Optuna"
    n_trials := some 10
    n_jobs := some 1
    timeout := Option.none
    storage := Option.none
    study_name := some sn
    load_if_exists := some false
    overwrite_study := some false
    optimization_direction := some "maximize" }

/-- Default-construct `OptimizationConfig()` at wall-clock time
`_constructMillis` with random draw `_constructRand`, in a process whose
module import happened at `importMillis` with draw `importRand`.  The Field
default expression was already evaluated at import, so the construction-time
arguments cannot influence the result; they are parameters here only so the
dependence (or lack of it) can be stated. -/
def mkOptimizationConfigAt (importMillis importRand _constructMillis _constructRand : Int) :
    OptimizationConfig :=
  defaultOptimizationConfig (studyNameDefault importMillis importRand)

def defaultLoaderConfig : LoaderConfig :=
  { type := .UNSTRUCTURED, loader_kwargs := Option.none, custom_class := Option.none }

def defaultChunkingStrategyConfig : ChunkingStrategyConfig :=
  { type := .RECURSIVE, chunker_kwargs := Option.none, custom_class := Option.none }

def defaultEmbeddingConfig : EmbeddingConfig :=
  { type := .HUGGINGFACE
    model_kwargs := some [("model_name", .str "sentence-transformers/all-MiniLM-L6-v2")]
    custom_class := Option.none }

def defaultVectorDBConfig : VectorDBConfig :=
  { type := .FAISS, vectordb_kwargs := some [], custom_class := Option.none }

def defaultEvaluatorKwargs : PyDict :=
  [("top_k", .int 5), ("position_weights", .none),
   ("relevance_threshold", .float (3 / 4 : Rat))]

def defaultEvaluationConfig : EvaluationConfig :=
  { type := .SIMILARITY, custom_class := Option.none
    evaluator_kwargs := some defaultEvaluatorKwargs }

def defaultLogConfig : LogConfig :=
  { log_level := 20, log_file := Option.none, show_progress_bar := true, verbose := false }

/- Validation.  Pydantic v2 validates each declared field of a model from the
input mapping: a present key is validated against the field's annotation, an
absent key takes the field's default (an error if the field has no default),
undeclared keys are ignored (default model config extra=ignore), and errors
for all fields are collected into one ValidationError.  The validators below
mirror that for the value shapes configuration documents produce (strings,
ints, bools, floats, None, lists, mappings); pydantic's lax numeric-string
coercions are not exercised by any document considered here.  Error texts
are modelled as one message per failing field, prefixed by the field name. -/

def vStr : PyVal → Except String String
  | .str s => .ok s
  | _ => .error "Input should be a valid string"

def vInt : PyVal → Except String Int
  | .int n => .ok n
  | _ => .error "Input should be a valid integer"

def vBool : PyVal → Except String Bool
  | .bool b => .ok b
  | _ => .error "Input should be a valid boolean"

/-- A `float` field accepts a float, and coerces an int. -/
def vFloat : PyVal → Except String Rat
  | .float q => .ok q
  | .int n => .ok (n : Rat)
  | _ => .error "Input should be a valid number"

def vDictAny : PyVal → Except String PyDict
  | .dict es => .ok es
  | _ => .error "Input should be a valid dictionary"

/-- An `Optional[X]` annotation: `None` is accepted, otherwise validate as X. -/
def vOptional (f : PyVal → Except String α) : PyVal → Except String (Option α)
  | .none => .ok Option.none
  | v => (f v).map some

def vListAux (f : PyVal → Except String α) : List PyVal → Except String (List α)
  | [] => .ok []
  | v :: vs =>
    match f v, vListAux f vs with
    | .ok a, .ok as => .ok (a :: as)
    | .error m, _ => .error m
    | _, .error m => .error m

/-- A `List[X]` annotation: the value must be a list and every element must
validate as X (the first failing element's message is kept). -/
def vListOf (f : PyVal → Except String α) : PyVal → Except String (List α)
  | .list xs => vListAux f xs
  | _ => .error "Input should be a valid list"

/-- A `Union[str, List[str]]` annotation. -/
def vInputSource : PyVal → Except String InputSource
  | .str s => .ok (.str s)
  | .list xs =>
    match vListAux vStr xs with
    | .ok ss => .ok (.list ss)
    | .error m => .error m
  | _ => .error "Input should be a valid string or list of strings"

def vParserType (v : PyVal) : Except String ParserType :=
  match v with
  | .str s =>
    match ParserType.fromValue s with
    | some p => .ok p
    | Option.none => .error "Input should be a valid ParserType member"
  | _ => .error "Input should be a valid ParserType member"

def vChunkingStrategy (v : PyVal) : Except String ChunkingStrategy :=
  match v with
  | .str s =>
    match ChunkingStrategy.fromValue s with
    | some p => .ok p
    | Option.none => .error "Input should be a valid ChunkingStrategy member"
  | _ => .error "Input should be a valid ChunkingStrategy member"

def vEmbeddingModel (v : PyVal) : Except String EmbeddingModel :=
  match v with
  | .str s =>
    match EmbeddingModel.fromValue s with
    | some p => .ok p
    | Option.none => .error "Input should be a valid EmbeddingModel member"
  | _ => .error "Input should be a valid EmbeddingModel member"

def vVectorDatabase (v : PyVal) : Except String VectorDatabase :=
  match v with
  | .str s =>
    match VectorDatabase.fromValue s with
    | some p => .ok p
    | Option.none => .error "Input should be a valid VectorDatabase member"
  | _ => .error "Input should be a valid VectorDatabase member"

def vEvaluatorType (v : PyVal) : Except String EvaluatorType :=
  match v with
  | .str s =>
    match EvaluatorType.fromValue s with
    | some p => .ok p
    | Option.none => .error "Input should be a valid EvaluatorType member"
  | _ => .error "Input should be a valid EvaluatorType member"

/-- Validate one declared field: a present key is validated by `f` (errors get
the field name as location prefix), an absent key takes the default, and a
field with no default (`dflt = none`) is required. -/
def vField (es : PyDict) (k : String) (f : PyVal → Except String α)
    (dflt : Option α) : Except String α :=
  match dictGet es k with
  | some v =>
    match f v with
    | .ok a => .ok a
    | .error m => .error (k ++ ": " ++ m)
  | Option.none =>
    match dflt with
    | some d => .ok d
    | Option.none => .error (k ++ ": Field required")

/-- The messages contributed by one field result. -/
def errOf : Except String α → List String
  | .ok _ => []
  | .error m => [m]

def vLoaderConfig (v : PyVal) : Except String LoaderConfig :=
  match v with
  | .dict es =>
    let t := vField es "type" vParserType Option.none
    let kw := vField es "loader_kwargs" (vOptional vDictAny) (some Option.none)
    let cc := vField es "custom_class" (vOptional vStr) (some Option.none)
    match t, kw, cc with
    | .ok a, .ok b, .ok c => .ok ⟨a, b, c⟩
    | _, _, _ => .error (String.intercalate "; " (errOf t ++ errOf kw ++ errOf cc))
  | _ => .error "Input should be a valid dictionary"

def vChunkingStrategyConfig (v : PyVal) : Except String ChunkingStrategyConfig :=
  match v with
  | .dict es =>
    let t := vField es "type" vChunkingStrategy Option.none
    let kw := vField es "chunker_kwargs" (vOptional vDictAny) (some Option.none)
    let cc := vField es "custom_class" (vOptional vStr) (some Option.none)
    match t, kw, cc with
    | .ok a, .ok b, .ok c => .ok ⟨a, b, c⟩
    | _, _, _ => .error (String.intercalate "; " (errOf t ++ errOf kw ++ errOf cc))
  | _ => .error "Input should be a valid dictionary"

def vChunkSizeConfig (v : PyVal) : Except String ChunkSizeConfig :=
  match v with
  | .dict es =>
    let a := vField es "min" vInt (some 100)
    let b := vField es "max" vInt (some 500)
    let c := vField es "stepsize" vInt (some 100)
    match a, b, c with
    | .ok x, .ok y, .ok z => .ok ⟨x, y, z⟩
    | _, _, _ => .error (String.intercalate "; " (errOf a ++ errOf b ++ errOf c))
  | _ => .error "Input should be a valid dictionary"

def vEmbeddingConfig (v : PyVal) : Except String EmbeddingConfig :=
  match v with
  | .dict es =>
    let t := vField es "type" vEmbeddingModel Option.none
    let kw := vField es "model_kwargs" (vOptional vDictAny) (some (some []))
    let cc := vField es "custom_class" (vOptional vStr) (some Option.none)
    match t, kw, cc with
    | .ok a, .ok b, .ok c => .ok ⟨a, b, c⟩
    | _, _, _ => .error (String.intercalate "; " (errOf t ++ errOf kw ++ errOf cc))
  | _ => .error "Input should be a valid dictionary"

def vVectorDBConfig (v : PyVal) : Except String VectorDBConfig :=
  match v with
  | .dict es =>
    let t := vField es "type" vVectorDatabase Option.none
    let kw := vField es "vectordb_kwargs" (vOptional vDictAny) (some (some []))
    let cc := vField es "custom_class" (vOptional vStr) (some Option.none)
    match t, kw, cc with
    | .ok a, .ok b, .ok c => .ok ⟨a, b, c⟩
    | _, _, _ => .error (String.intercalate "; " (errOf t ++ errOf kw ++ errOf cc))
  | _ => .error "Input should be a valid dictionary"

def vEvaluationConfig (v : PyVal) : Except String EvaluationConfig :=
  match v with
  | .dict es =>
    let t := vField es "type" vEvaluatorType (some .SIMILARITY)
    let cc := vField es "custom_class" (vOptional vStr) (some Option.none)
    let kw := vField es "evaluator_kwargs" (vOptional vDictAny)
      (some (some defaultEvaluatorKwargs))
    match t, cc, kw with
    | .ok a, .ok b, .ok c => .ok ⟨a, b, c⟩
    | _, _, _ => .error (String.intercalate "; " (errOf t ++ errOf cc ++ errOf kw))
  | _ => .error "Input should be a valid dictionary"

/-- Validate an `optimization` value; `sn` is the import-time study-name
default (see `studyNameDefault`). -/
def vOptimizationConfig (sn : String) (v : PyVal) : Except String OptimizationConfig :=
  match v with
  | .dict es =>
    let a := vField es "type" (vOptional vStr) (some (some "Optuna"))
    let b := vField es "n_trials" (vOptional vInt) (some (some 10))
    let c := vField es "n_jobs" (vOptional vInt) (some (some 1))
    let d := vField es "timeout" (vOptional vInt) (some Option.none)
    let e := vField es "storage" (vOptional vStr) (some Option.none)
    let f := vField es "study_name" (vOptional vStr) (some (some sn))
    let g := vField es "load_if_exists" (vOptional vBool) (some (some false))
    let h := vField es "overwrite_study" (vOptional vBool) (some (some false))
    let i := vField es "optimization_direction" (vOptional vStr) (some (some "maximize"))
    match a, b, c, d, e, f, g, h, i with
    | .ok a1, .ok b1, .ok c1, .ok d1, .ok e1, .ok f1, .ok g1, .ok h1, .ok i1 =>
      .ok ⟨a1, b1, c1, d1, e1, f1, g1, h1, i1⟩
    | _, _, _, _, _, _, _, _, _ =>
      .error (String.intercalate "; "
        (errOf a ++ errOf b ++ errOf c ++ errOf d ++ errOf e ++ errOf f ++
         errOf g ++ errOf h ++ errOf i))
  | _ => .error "Input should be a valid dictionary"

def vLogConfig (v : PyVal) : Except String LogConfig :=
  match v with
  | .dict es =>
    let a := vField es "log_level" vInt (some 20)
    let b := vField es "log_file" (vOptional vStr) (some Option.none)
    let c := vField es "show_progress_bar" vBool (some true)
    let d := vField es "verbose" vBool (some false)
    match a, b, c, d with
    | .ok a1, .ok b1, .ok c1, .ok d1 => .ok ⟨a1, b1, c1, d1⟩
    | _, _, _, _ =>
      .error (String.intercalate "; " (errOf a ++ errOf b ++ errOf c ++ errOf d))
  | _ => .error "Input should be a valid dictionary"

/-- Validation of `DataIngestOptionsConfig(**es)` (the multi-option schema).
`sn` is the import-time study-name default. -/
def validateOptions (sn : String) (es : PyDict) :
    Except (List String) DataIngestOptionsConfig :=
  let i := vField es "input_source" vInputSource Option.none
  let t := vField es "test_dataset" vStr Option.none
  let dls := vField es "document_loaders" (vOptional (vListOf vLoaderConfig))
    (some (some [defaultLoaderConfig]))
  let cs := vField es "chunking_strategies" (vOptional (vListOf vChunkingStrategyConfig))
    (some (some [defaultChunkingStrategyConfig]))
  let csz := vField es "chunk_size" (vOptional vChunkSizeConfig)
    (some (some ⟨100, 500, 100⟩))
  let co := vField es "chunk_overlap" (vOptional (vListOf vInt)) (some (some [100]))
  let em := vField es "embedding_models" (vOptional (vListOf vEmbeddingConfig))
    (some (some [defaultEmbeddingConfig]))
  let vd := vField es "vector_databases" (vOptional (vListOf vVectorDBConfig))
    (some (some [defaultVectorDBConfig]))
  let sr := vField es "sampling_rate" (vOptional vFloat) (some Option.none)
  let op := vField es "optimization" (vOptional (vOptimizationConfig sn))
    (some (some (defaultOptimizationConfig sn)))
  let lc := vField es "log_config" (vOptional vLogConfig) (some (some defaultLogConfig))
  let dbl := vField es "database_logging" (vOptional vBool) (some (some true))
  let dbp := vField es "database_path" (vOptional vStr) (some (some "eval.db"))
  let ec := vField es "evaluation_config" vEvaluationConfig (some defaultEvaluationConfig)
  match i, t, dls, cs, csz, co, em, vd, sr, op, lc, dbl, dbp, ec with
  | .ok x1, .ok x2, .ok x3, .ok x4, .ok x5, .ok x6, .ok x7, .ok x8, .ok x9,
    .ok x10, .ok x11, .ok x12, .ok x13, .ok x14 =>
    .ok ⟨x1, x2, x3, x4, x5, x6, x7, x8, x9, x10, x11, x12, x13, x14⟩
  | _, _, _, _, _, _, _, _, _, _, _, _, _, _ =>
    .error (errOf i ++ errOf t ++ errOf dls ++ errOf cs ++ errOf csz ++ errOf co ++
      errOf em ++ errOf vd ++ errOf sr ++ errOf op ++ errOf lc ++ errOf dbl ++
      errOf dbp ++ errOf ec)

/-- Validation of `DataIngestConfig(**es)` (the single-run schema). -/
def validateDataIngest (es : PyDict) : Except (List String) DataIngestConfig :=
  let i := vField es "input_source" vInputSource Option.none
  let t := vField es "test_dataset" vStr Option.none
  let dl := vField es "document_loader" vLoaderConfig (some defaultLoaderConfig)
  let cstrat := vField es "chunking_strategy" vChunkingStrategyConfig
    (some defaultChunkingStrategyConfig)
  let csz := vField es "chunk_size" vInt (some 1000)
  let co := vField es "chunk_overlap" vInt (some 100)
  let em := vField es "embedding_model" vEmbeddingConfig (some defaultEmbeddingConfig)
  let vd := vField es "vector_database" vVectorDBConfig (some defaultVectorDBConfig)
  let sr := vField es "sampling_rate" (vOptional vFloat) (some Option.none)
  match i, t, dl, cstrat, csz, co, em, vd, sr with
  | .ok x1, .ok x2, .ok x3, .ok x4, .ok x5, .ok x6, .ok x7, .ok x8, .ok x9 =>
    .ok ⟨x1, x2, x3, x4, x5, x6, x7, x8, x9⟩
  | _, _, _, _, _, _, _, _, _ =>
    .error (errOf i ++ errOf t ++ errOf dl ++ errOf cstrat ++ errOf csz ++
      errOf co ++ errOf em ++ errOf vd ++ errOf sr)

/- The loader. -/

/-- Outcome of `load_config` on a parsed document: a returned record of one
of the two variants, a raised ValueError carrying its message, the final
ValueError raised as `Invalid configuration: ...` (carrying, structurally,
the single-run validation failure it aggregates), or an unhandled TypeError. -/
inductive LoadResult where
  | okOptions (c : DataIngestOptionsConfig)
  | okSingle (c : DataIngestConfig)
  | valueError (msg : String)
  | invalidConfig (errs : List String)
  | typeError (msg : String)
  | yamlError (msg : String)

/-- The message of the ValueError raised when a mandatory key is absent.
The source writes `test_data` here, not the field name `test_dataset`. -/
def missingFieldMsg : String :=
  "Configuration must include \x27input_source\x27 and \x27test_data\x27"

/-- `load_config` after yaml parsing: the mandatory-key membership check
(`if 'input_source' not in config_dict or 'test_dataset' not in config_dict`,
with Python's left-to-right short-circuit evaluation and TypeError on
non-container operands), then `DataIngestOptionsConfig(**config_dict)`
guarded by a fallback to `DataIngestConfig(**config_dict)`, whose own
failure is rewrapped as `ValueError(f"Invalid configuration: ...")`.
`**config_dict` itself raises TypeError when the operand is not a mapping.
`sn` is the import-time study-name default. -/
def load_config (sn : String) (doc : PyVal) : LoadResult :=
  match pyContains "input_source" doc with
  | .error m => .typeError m
  | .ok b1 =>
    if !b1 then .valueError missingFieldMsg
    else
      match pyContains "test_dataset" doc with
      | .error m => .typeError m
      | .ok b2 =>
        if !b2 then .valueError missingFieldMsg
        else
          match doc with
          | .dict es =>
            match validateOptions sn es with
            | .ok c => .okOptions c
            | .error _ =>
              match validateDataIngest es with
              | .ok c => .okSingle c
              | .error e => .invalidConfig e
          | _ => .typeError "argument after ** must be a mapping"

/- Serialization: `save_config` calls `config.to_yaml(path)`, which writes
`yaml.dump(self.model_dump())`.  Pydantic v2 `model_dump()` in its default
python mode keeps str-Enum members as Enum members (not plain strings).
PyYAML's default `Dumper` has no representer registered for the exact type
of such a member; its multi-representer for `object` applies instead,
emitting a `tag:yaml.org,2002:python/object/apply:<class>` node built from
the member's pickle reduction.  A later `yaml.safe_load` refuses any such
tag with a ConstructorError.  `YamlNode` is the dumped document tree and
`yamlDump` / `safeLoadNode` model the two directions. -/

def optVal (f : α → PyVal) : Option α → PyVal
  | some a => f a
  | Option.none => .none

def InputSource.dump : InputSource → PyVal
  | .str s => .str s
  | .list xs => .list (xs.map PyVal.str)

def LoaderConfig.model_dump (c : LoaderConfig) : PyVal :=
  .dict [("type", .enumv "ParserType" c.type.value),
         ("loader_kwargs", optVal .dict c.loader_kwargs),
         ("custom_class", optVal .str c.custom_class)]

def ChunkingStrategyConfig.model_dump (c : ChunkingStrategyConfig) : PyVal :=
  .dict [("type", .enumv "ChunkingStrategy" c.type.value),
         ("chunker_kwargs", optVal .dict c.chunker_kwargs),
         ("custom_class", optVal .str c.custom_class)]

def ChunkSizeConfig.model_dump (c : ChunkSizeConfig) : PyVal :=
  .dict [("min", .int c.min), ("max", .int c.max), ("stepsize", .int c.stepsize)]

def EmbeddingConfig.model_dump (c : EmbeddingConfig) : PyVal :=
  .dict [("type", .enumv "EmbeddingModel" c.type.value),
         ("model_kwargs", optVal .dict c.model_kwargs),
         ("custom_class", optVal .str c.custom_class)]

def VectorDBConfig.model_dump (c : VectorDBConfig) : PyVal :=
  .dict [("type", .enumv "VectorDatabase" c.type.value),
         ("vectordb_kwargs", optVal .dict c.vectordb_kwargs),
         ("custom_class", optVal .str c.custom_class)]

def EvaluationConfig.model_dump (c : EvaluationConfig) : PyVal :=
  .dict [("type", .enumv "EvaluatorType" c.type.value),
         ("custom_class", optVal .str c.custom_class),
         ("evaluator_kwargs", optVal .dict c.evaluator_kwargs)]

def OptimizationConfig.model_dump (c : OptimizationConfig) : PyVal :=
  .dict [("type", optVal .str c.type),
         ("n_trials", optVal .int c.n_trials),
         ("n_jobs", optVal .int c.n_jobs),
         ("timeout", optVal .int c.timeout),
         ("storage", optVal .str c.storage),
         ("study_name", optVal .str c.study_name),
         ("load_if_exists", optVal .bool c.load_if_exists),
         ("overwrite_study", optVal .bool c.overwrite_study),
         ("optimization_direction", optVal .str c.optimization_direction)]

def LogConfig.model_dump (c : LogConfig) : PyVal :=
  .dict [("log_level", .int c.log_level),
         ("log_file", optVal .str c.log_file),
         ("show_progress_bar", .bool c.show_progress_bar),
         ("verbose", .bool c.verbose)]

def DataIngestOptionsConfig.model_dump (c : DataIngestOptionsConfig) : PyVal :=
  .dict [("input_source", c.input_source.dump),
         ("test_dataset", .str c.test_dataset),
         ("document_loaders", optVal (fun l => .list (l.map LoaderConfig.model_dump)) c.document_loaders),
         ("chunking_strategies", optVal (fun l => .list (l.map ChunkingStrategyConfig.model_dump)) c.chunking_strategies),
         ("chunk_size", optVal ChunkSizeConfig.model_dump c.chunk_size),
         ("chunk_overlap", optVal (fun l => .list (l.map PyVal.int)) c.chunk_overlap),
         ("embedding_models", optVal (fun l => .list (l.map EmbeddingConfig.model_dump)) c.embedding_models),
         ("vector_databases", optVal (fun l => .list (l.map VectorDBConfig.model_dump)) c.vector_databases),
         ("sampling_rate", optVal .float c.sampling_rate),
         ("optimization", optVal OptimizationConfig.model_dump c.optimization),
         ("log_config", optVal LogConfig.model_dump c.log_config),
         ("database_logging", optVal .bool c.database_logging),
         ("database_path", optVal .str c.database_path),
         ("evaluation_config", c.evaluation_config.model_dump)]

def DataIngestConfig.model_dump (c : DataIngestConfig) : PyVal :=
  .dict [("input_source", c.input_source.dump),
         ("test_dataset", .str c.test_dataset),
         ("document_loader", c.document_loader.model_dump),
         ("chunking_strategy", c.chunking_strategy.model_dump),
         ("chunk_size", .int c.chunk_size),
         ("chunk_overlap", .int c.chunk_overlap),
         ("embedding_model", c.embedding_model.model_dump),
         ("vector_database", c.vector_database.model_dump),
         ("sampling_rate", optVal .float c.sampling_rate)]

/-- A node of the YAML document written by `yaml.dump`.  `pythonObject` is a
`!!python/object/apply:<cls>` node, the representation the default Dumper
produces for objects it has no dedicated representer for. -/
inductive YamlNode where
  | scalarNull
  | scalarBool (b : Bool)
  | scalarInt (n : Int)
  | scalarFloat (q : Rat)
  | scalarStr (s : String)
  | seq (xs : List YamlNode)
  | ymap (es : List (String × YamlNode))
  | pythonObject (cls : String) (args : List YamlNode)

mutual
/-- `yaml.dump` with the default Dumper: plain scalars, sequences and
mappings map structurally; a str-Enum member (no exact-type representer)
falls to the `object` multi-representer and becomes a python/object tag
applying its class to its string value. -/
def yamlDump : PyVal → YamlNode
  | .none => .scalarNull
  | .bool b => .scalarBool b
  | .int n => .scalarInt n
  | .float q => .scalarFloat q
  | .str s => .scalarStr s
  | .list xs => .seq (yamlDumpList xs)
  | .dict es => .ymap (yamlDumpDict es)
  | .enumv cls v => .pythonObject cls [.scalarStr v]

def yamlDumpList : List PyVal → List YamlNode
  | [] => []
  | v :: vs => yamlDump v :: yamlDumpList vs

def yamlDumpDict : List (String × PyVal) → List (String × YamlNode)
  | [] => []
  | (k, v) :: es => (k, yamlDump v) :: yamlDumpDict es
end

mutual
/-- `yaml.safe_load` on a dumped tree: the SafeLoader constructs plain
scalars and collections, and raises ConstructorError at the first
python/object tag it meets. -/
def safeLoadNode : YamlNode → Except String PyVal
  | .scalarNull => .ok .none
  | .scalarBool b => .ok (.bool b)
  | .scalarInt n => .ok (.int n)
  | .scalarFloat q => .ok (.float q)
  | .scalarStr s => .ok (.str s)
  | .seq xs => (safeLoadSeq xs).map .list
  | .ymap es => (safeLoadMap es).map .dict
  | .pythonObject cls _ =>
    .error ("could not determine a constructor for the tag " ++
      "tag:yaml.org,2002:python/object/apply:" ++ cls)

def safeLoadSeq : List YamlNode → Except String (List PyVal)
  | [] => .ok []
  | y :: ys =>
    match safeLoadNode y, safeLoadSeq ys with
    | .ok v, .ok vs => .ok (v :: vs)
    | .error m, _ => .error m
    | _, .error m => .error m

def safeLoadMap : List (String × YamlNode) → Except String (List (String × PyVal))
  | [] => .ok []
  | (k, y) :: es =>
    match safeLoadNode y, safeLoadMap es with
    | .ok v, .ok vs => .ok ((k, v) :: vs)
    | .error m, _ => .error m
    | _, .error m => .error m
end

/-- `save_config(config, path)` for a multi-option record: the YAML document
written to the file. -/
def save_configOptions (c : DataIngestOptionsConfig) : YamlNode :=
  yamlDump c.model_dump

/-- `save_config(config, path)` for a single-run record. -/
def save_configSingle (c : DataIngestConfig) : YamlNode :=
  yamlDump c.model_dump

/-- `load_config(path)` reading a file whose YAML document tree is `y`:
`yaml.safe_load` first (an unhandled ConstructorError surfaces as
`yamlError`), then the in-memory `load_config` logic. -/
def load_config_file (sn : String) (y : YamlNode) : LoadResult :=
  match safeLoadNode y with
  | .error m => .yamlError m
  | .ok doc => load_config sn doc

/-- The record a minimal document (only the two mandatory keys) validates to
under the multi-option schema: every other field takes its declared default. -/
def minimalOptionsRecord (sn : String) (src : InputSource) (td : String) :
    DataIngestOptionsConfig :=
  { input_source := src
    test_dataset := td
    document_loaders := some [defaultLoaderConfig]
    chunking_strategies := some [defaultChunkingStrategyConfig]
    chunk_size := some ⟨100, 500, 100⟩
    chunk_overlap := some [100]
    embedding_models := some [defaultEmbeddingConfig]
    vector_databases := some [defaultVectorDBConfig]
    sampling_rate := Option.none
    optimization := some (defaultOptimizationConfig sn)
    log_config := some defaultLogConfig
    database_logging := some true
    database_path := some "eval.db"
    evaluation_config := defaultEvaluationConfig }

/- Discriminators and auxiliary data used by the claim statements. -/

/-- Whether a load outcome is the single-run variant. -/
def LoadResult.isSingleRun : LoadResult → Bool
  | .okSingle _ => true
  | _ => false

/-- Whether a load outcome is an unhandled TypeError. -/
def LoadResult.isTypeError : LoadResult → Bool
  | .typeError _ => true
  | _ => false

/-- Every top-level field name declared by either schema variant (the union
of the `DataIngestOptionsConfig` and `DataIngestConfig` field names,
including the two inherited mandatory ones). -/
def declaredConfigKeys : List String :=
  ["input_source", "test_dataset", "document_loaders", "chunking_strategies",
   "chunk_size", "chunk_overlap", "embedding_models", "vector_databases",
   "sampling_rate", "optimization", "log_config", "database_logging",
   "database_path", "evaluation_config", "document_loader", "chunking_strategy",
   "embedding_model", "vector_database"]

/-- C1 counterexample: a document holding exactly `input_source` and
`test_dataset` does NOT load as the single-run variant (DataIngestConfig):
the multi-option schema is attempted first, every non-mandatory field of it
has a default, so the multi-option variant is returned. -/
theorem claim1_counterexample :
    load_config "data_ingest_1700000000000"
      (.dict [("input_source", .str "docs/"), ("test_dataset", .str "test.csv")]) =
      .okOptions (minimalOptionsRecord "data_ingest_1700000000000" (.str "docs/") "test.csv") ∧
    (load_config "data_ingest_1700000000000"
      (.dict [("input_source", .str "docs/"), ("test_dataset", .str "test.csv")])).isSingleRun
      = false :=
  ⟨rfl, rfl⟩

/-- C1 (amended): a document containing both `input_source` and
`test_dataset` and no other keys loads successfully as the MULTI-OPTION
variant with the multi-option defaults applied: document_loaders
[unstructured], chunking_strategies [recursive], chunk-size range
min 100 / max 500 / step 100, chunk_overlap [100], the local
sentence-embedding default embedding model (huggingface,
sentence-transformers/all-MiniLM-L6-v2) and the local in-memory FAISS
default vector database. -/
theorem claim1_minimal_doc_loads_as_multi_option (sn s t : String) :
    load_config sn (.dict [("input_source", .str s), ("test_dataset", .str t)]) =
      .okOptions (minimalOptionsRecord sn (.str s) t) :=
  rfl

/-- C2: for a mapping document containing both mandatory keys, `load_config`
tries the multi-option schema first (its success is returned even when the
single-run schema would also accept the document); on multi-option failure
the single-run schema is tried; and when both fail the surfaced error is
built from the single-run failure alone — the multi-option failure does not
appear in the result. -/
theorem claim2_two_attempt_schema_disambiguation (sn : String) (es : PyDict)
    (hin : es.any (fun kv => kv.1 == "input_source") = true)
    (htd : es.any (fun kv => kv.1 == "test_dataset") = true) :
    (∀ c, validateOptions sn es = .ok c → load_config sn (.dict es) = .okOptions c) ∧
    (∀ e c, validateOptions sn es = .error e → validateDataIngest es = .ok c →
      load_config sn (.dict es) = .okSingle c) ∧
    (∀ e e2, validateOptions sn es = .error e → validateDataIngest es = .error e2 →
      load_config sn (.dict es) = .invalidConfig e2) := by
  refine ⟨?_, ?_, ?_⟩
  · intro c h1
    simp [load_config, pyContains, hin, htd, h1]
  · intro e c h1 h2
    simp [load_config, pyContains, hin, htd, h1, h2]
  · intro e e2 h1 h2
    simp [load_config, pyContains, hin, htd, h1, h2]

/-- The concrete both-variants-fail document used as the C2 witness:
`chunk_size` is a string, invalid as a ChunkSizeConfig mapping (multi-option)
and invalid as an int (single-run). -/
def bothFailDoc : PyDict :=
  [("input_source", .str "docs/"), ("test_dataset", .str "test.csv"),
   ("chunk_size", .str "big")]

/-- C2 witness: on `bothFailDoc` both attempts fail and the surfaced error is
the single-run one (chunk_size must be an integer), not the multi-option one
(chunk_size must be a mapping). -/
theorem claim2_two_attempt_schema_disambiguation_witness :
    load_config "data_ingest_1" (.dict bothFailDoc) =
      .invalidConfig ["chunk_size: Input should be a valid integer"] :=
  (claim2_two_attempt_schema_disambiguation "data_ingest_1" bothFailDoc rfl rfl).2.2
    ["chunk_size: Input should be a valid dictionary"]
    ["chunk_size: Input should be a valid integer"] rfl rfl

/-- C3 counterexample: a document whose `document_loader` field (singular) is
a single mapping does NOT load as the single-run variant: the multi-option
schema ignores the undeclared singular key, validates successfully on
defaults, and the multi-option variant is returned. -/
theorem claim3_counterexample :
    load_config "data_ingest_1"
      (.dict [("input_source", .str "docs/"), ("test_dataset", .str "test.csv"),
        ("document_loader", .dict [("type", .str "pymupdf")])]) =
      .okOptions (minimalOptionsRecord "data_ingest_1" (.str "docs/") "test.csv") ∧
    (load_config "data_ingest_1"
      (.dict [("input_source", .str "docs/"), ("test_dataset", .str "test.csv"),
        ("document_loader", .dict [("type", .str "pymupdf")])])).isSingleRun = false :=
  ⟨rfl, rfl⟩

/-- C3 (amended): a document whose `document_loaders` field is a list loads
as the multi-option variant even when the list has exactly one element; but
a document whose `document_loader` field (singular) is a single mapping ALSO
loads as the multi-option variant (the singular key is undeclared in the
multi-option schema and silently ignored, so that schema still validates).
The single-run variant is produced only when multi-option validation fails,
for example when `chunk_size` is a plain integer. -/
theorem claim3_variant_selection (sn s t : String) (p : ParserType) (n : Int) :
    (load_config sn (.dict [("input_source", .str s), ("test_dataset", .str t),
        ("document_loaders", .list [.dict [("type", .str p.value)]])]) =
      .okOptions { minimalOptionsRecord sn (.str s) t with
        document_loaders := some [⟨p, Option.none, Option.none⟩] }) ∧
    (load_config sn (.dict [("input_source", .str s), ("test_dataset", .str t),
        ("document_loader", .dict [("type", .str p.value)])]) =
      .okOptions (minimalOptionsRecord sn (.str s) t)) ∧
    (load_config sn (.dict [("input_source", .str s), ("test_dataset", .str t),
        ("chunk_size", .int n)]) =
      .okSingle ⟨.str s, t, defaultLoaderConfig, defaultChunkingStrategyConfig, n, 100,
        defaultEmbeddingConfig, defaultVectorDBConfig, Option.none⟩) := by
  refine ⟨?_, ?_, ?_⟩
  · cases p <;> rfl
  · rfl
  · rfl

/-- C4: a document missing `test_dataset` does fail before any
schema-variant attempt (the outcome is the membership-check ValueError, not
a schema validation outcome), but the error message names `test_data` — a
typo — and never contains the actual field name `test_dataset`, although the
code checks for the key `test_dataset`.  This evaluates the code at the
failing input and exhibits the divergence. -/
theorem claim4_missing_field_error_message :
    load_config "data_ingest_1" (.dict [("input_source", .str "docs/")]) =
      .valueError missingFieldMsg ∧
    strContains "test_dataset" missingFieldMsg = false ∧
    strContains "test_data" missingFieldMsg = true :=
  ⟨rfl, rfl, rfl⟩

/-- C5 counterexample: schema validation ACCEPTS a document carrying an
undeclared top-level key (`bogus_key`), returning the defaulted record —
unknown keys are not rejected. -/
theorem claim5_counterexample :
    validateOptions "data_ingest_1"
      [("input_source", .str "docs/"), ("test_dataset", .str "test.csv"),
       ("bogus_key", .int 3)] =
      .ok (minimalOptionsRecord "data_ingest_1" (.str "docs/") "test.csv") :=
  rfl

/-- C5 (amended): unknown/extra top-level keys are silently ignored, never
rejected: a document extended with any key that is not a declared field of
either schema variant loads exactly as if that key were absent. -/
theorem claim5_unknown_keys_ignored (sn s t k : String) (v : PyVal)
    (hk : k ∉ declaredConfigKeys) :
    load_config sn (.dict [("input_source", .str s), ("test_dataset", .str t), (k, v)]) =
      .okOptions (minimalOptionsRecord sn (.str s) t) := by
  simp only [declaredConfigKeys, List.mem_cons, List.mem_singleton, not_or,
    List.not_mem_nil] at hk
  obtain ⟨h1, h2, h3, h4, h5, h6, h7, h8, h9, h10, h11, h12, h13, h14, h15, h16, h17,
    h18⟩ := hk
  have e3 : (k == "document_loaders") = false := beq_eq_false_iff_ne.mpr h3
  have e4 : (k == "chunking_strategies") = false := beq_eq_false_iff_ne.mpr h4
  have e5 : (k == "chunk_size") = false := beq_eq_false_iff_ne.mpr h5
  have e6 : (k == "chunk_overlap") = false := beq_eq_false_iff_ne.mpr h6
  have e7 : (k == "embedding_models") = false := beq_eq_false_iff_ne.mpr h7
  have e8 : (k == "vector_databases") = false := beq_eq_false_iff_ne.mpr h8
  have e9 : (k == "sampling_rate") = false := beq_eq_false_iff_ne.mpr h9
  have e10 : (k == "optimization") = false := beq_eq_false_iff_ne.mpr h10
  have e11 : (k == "log_config") = false := beq_eq_false_iff_ne.mpr h11
  have e12 : (k == "database_logging") = false := beq_eq_false_iff_ne.mpr h12
  have e13 : (k == "database_path") = false := beq_eq_false_iff_ne.mpr h13
  have e14 : (k == "evaluation_config") = false := beq_eq_false_iff_ne.mpr h14
  simp [load_config, pyContains, validateOptions, vField, dictGet, List.find?,
    e3, e4, e5, e6, e7, e8, e9, e10, e11, e12, e13, e14, minimalOptionsRecord,
    vInputSource, vStr, vEvaluationConfig]

/-- C5 witness: the amended statement at a concrete undeclared key. -/
theorem claim5_unknown_keys_ignored_witness :
    load_config "data_ingest_1"
      (.dict [("input_source", .str "docs/"), ("test_dataset", .str "test.csv"),
        ("bogus_key", .int 3)]) =
      .okOptions (minimalOptionsRecord "data_ingest_1" (.str "docs/") "test.csv") :=
  claim5_unknown_keys_ignored "data_ingest_1" "docs/" "test.csv" "bogus_key" (.int 3)
    (by decide)

/-- The document and record used to evaluate the round-trip. -/
def roundTripDoc : PyVal :=
  .dict [("input_source", .str "docs/"), ("test_dataset", .str "test.csv")]

def roundTripRecord : DataIngestOptionsConfig :=
  minimalOptionsRecord "data_ingest_1" (.str "docs/") "test.csv"

/-- C6: the round-trip is NOT lossless — it does not even complete.
`LoadConfig` of a loadable document yields a record; `SaveConfig` of that
record passes `model_dump()` output, which still holds str-Enum members, to
`yaml.dump`, whose default Dumper writes them as
`!!python/object/apply:<EnumClass>` nodes; the subsequent `LoadConfig`
aborts inside `yaml.safe_load` with an unhandled ConstructorError at the
first such tag (the ParserType member of the document-loader field, present
in every record of either variant).  The same happens for a single-run
record. -/
theorem claim6_round_trip_fails :
    load_config "data_ingest_1" roundTripDoc = .okOptions roundTripRecord ∧
    load_config_file "data_ingest_1" (save_configOptions roundTripRecord) =
      .yamlError ("could not determine a constructor for the tag " ++
        "tag:yaml.org,2002:python/object/apply:ParserType") ∧
    load_config_file "data_ingest_1"
      (save_configSingle ⟨.str "docs/", "test.csv", defaultLoaderConfig,
        defaultChunkingStrategyConfig, 1000, 100, defaultEmbeddingConfig,
        defaultVectorDBConfig, Option.none⟩) =
      .yamlError ("could not determine a constructor for the tag " ++
        "tag:yaml.org,2002:python/object/apply:ParserType") :=
  ⟨rfl, rfl, rfl⟩

/-- C7 counterexample: two `OptimizationConfig()` constructions in the same
process at different wall-clock times (milliseconds 1700000060000 and
1700009999000, different random draws) receive the SAME default study name,
refuting that configurations constructed at different times within one
process get distinct names: the default was fixed once at module import. -/
theorem claim7_counterexample :
    (mkOptimizationConfigAt 1700000000000 500 1700000060000 7).study_name =
      (mkOptimizationConfigAt 1700000000000 500 1700009999000 903).study_name ∧
    (1700000060000 : Int) ≠ 1700009999000 :=
  ⟨rfl, by decide⟩

/-- C7 (amended): the default study name is derived from wall-clock time
plus a random component evaluated ONCE, at module import (the Field default
expression is evaluated in the class body); every default-constructed
`OptimizationConfig` in the same process therefore carries that same name
fixed at import time, regardless of when it is constructed — distinctness can
hold only across processes that imported the module at different instants. -/
theorem claim7_study_name_fixed_at_import
    (im ir c1m c1r c2m c2r : Int) :
    (mkOptimizationConfigAt im ir c1m c1r).study_name =
      (mkOptimizationConfigAt im ir c2m c2r).study_name ∧
    (mkOptimizationConfigAt im ir c1m c1r).study_name =
      some (studyNameDefault im ir) :=
  ⟨rfl, rfl⟩

/-- C8: a Package Requirement Spec constructed with only a distribution name
derives its import name by replacing every hyphen with an underscore, and an
explicit non-empty import name is kept unchanged. -/
theorem claim8_pkgspec_import_name (n s : String) (h : s ≠ "") :
    (mkPkgSpec n "").import_name = hyphenToUnderscore n ∧
    (mkPkgSpec n s).import_name = s := by
  refine ⟨rfl, ?_⟩
  simp [mkPkgSpec, h]

/-- C8 witness: the spec's own example — distribution "python-docx" derives
the name "python_docx", and the explicit import name "docx" is kept. -/
theorem claim8_pkgspec_import_name_witness :
    ((mkPkgSpec "python-docx" "").import_name = hyphenToUnderscore "python-docx" ∧
     (mkPkgSpec "python-docx" "docx").import_name = "docx") ∧
    hyphenToUnderscore "python-docx" = "python_docx" :=
  ⟨claim8_pkgspec_import_name "python-docx" "docx" (by decide), rfl⟩

/-- C9: the registry dispatch tables are partial over their enumerations:
the CUSTOM member of ParserType, ChunkingStrategy, EmbeddingModel and
VectorDatabase has no entry in its table (lookup is `none`, a Python
KeyError), and the retriever table's only key is BM25. -/
theorem claim9_registry_maps_partial :
    lookupLoader .CUSTOM = Option.none ∧
    lookupChunker .CUSTOM = Option.none ∧
    lookupEmbedding .CUSTOM = Option.none ∧
    lookupVectorDB .CUSTOM = Option.none ∧
    RETRIEVER_MAP.map Prod.fst = [RetrieverType.BM25] ∧
    lookupRetriever .SIMILARITY = Option.none ∧
    lookupRetriever .MMR = Option.none ∧
    lookupRetriever .MULTI_QUERY = Option.none ∧
    lookupRetriever .PARENT_DOC_RETRIEVER_FULL = Option.none ∧
    lookupRetriever .PARENT_DOC_RETRIEVER_LARGE = Option.none ∧
    lookupRetriever .GRAPH_RETRIEVER = Option.none ∧
    lookupRetriever .CUSTOM = Option.none ∧
    lookupRetriever .BM25 = some ⟨"langchain.retrievers", "BM25Retriever"⟩ :=
  ⟨rfl, rfl, rfl, rfl, rfl, rfl, rfl, rfl, rfl, rfl, rfl, rfl, rfl⟩

/-- C10 counterexample: a file parsing to a LIST (not a mapping) does not
raise a type error at the membership check — Python list membership is
well-defined — it raises the missing-field ValueError instead, refuting the
universal claim over all non-mapping documents. -/
theorem claim10_counterexample :
    load_config "data_ingest_1" (.list [.str "some_entry"]) =
      .valueError missingFieldMsg ∧
    (load_config "data_ingest_1" (.list [.str "some_entry"])).isTypeError = false :=
  ⟨rfl, rfl⟩

/-- C10 (amended): a document parsing to null (the empty file), an int, a
bool or a float raises an unhandled TypeError at the mandatory-field
membership check; but lists and strings support Python membership, so a list
document reaches the missing-field ValueError, and a string document that
happens to contain both key names as substrings passes the check and raises
TypeError only later, at `**`-unpacking; a mapping document follows the
documented failure semantics. -/
theorem claim10_nonmapping_behaviour (sn : String) (n : Int) (b : Bool) (q : Rat) :
    load_config sn .none =
      .typeError "argument of type \x27NoneType\x27 is not iterable" ∧
    load_config sn (.int n) =
      .typeError "argument of type \x27int\x27 is not iterable" ∧
    load_config sn (.bool b) =
      .typeError "argument of type \x27bool\x27 is not iterable" ∧
    load_config sn (.float q) =
      .typeError "argument of type \x27float\x27 is not iterable" ∧
    load_config sn (.list [.str "some_entry"]) = .valueError missingFieldMsg ∧
    load_config sn (.str "input_source test_dataset") =
      .typeError "argument after ** must be a mapping" ∧
    load_config sn (.dict [("input_source", .str "docs/")]) =
      .valueError missingFieldMsg :=
  ⟨rfl, rfl, rfl, rfl, rfl, rfl, rfl⟩
